import Mathlib

/-!
# Verification of the ESP32-style media-player UI shell (src/main.py)

Shallow embedding of the concurrency/state-synchronization core of the
program: the playback controller (play_song, toggle_play_pause,
stop_playback, next_song, prev_song, get_playback_position), the
player-screen auto-advance tick (screen_player, lines 403-410), the WiFi
discovery path (scan_wifi and the scan branch of screen_wifi, lines
313-323), and the Bluetooth channel update performed by the background
thread (bt_scan_background, lines 122-127).

Modelling conventions:
- times and durations are rationals (seconds);
- the pygame mixer native position query (pygame.mixer.music.get_pos,
  documented in the source as returning milliseconds since play, or -1)
  is an input of type Option Nat: some ms for a reported millisecond
  count, none for the -1 sentinel;
- the outcome of the audio-engine calls inside the try of play_song
  (mixer.music.load and mixer.music.play) is a Bool input ok: true means
  both succeed, false means one of them raised (the except branch);
- the outcome of the external platform scan command run by scan_wifi is
  an input of an inductive type: the parsed SSID list on success, or one
  of the three exception classes the source catches;
- the mutable dict state of the source is split into a PlayerState record
  for the playback fields and a WifiState record for the WiFi channel
  fields; each Python assignment becomes a record update.
-/

/-- Song record, as produced by load_songs_from_folder: path, title,
artist and length in seconds (0.0 when unknown). The cover-art surface is
presentation data and is not modelled. -/
structure Song where
  path : String
  title : String
  artist : String
  length : ℚ
  deriving DecidableEq

/-- Default song used as the out-of-range default of list indexing. -/
def defaultSong : Song := { path := "", title := "", artist := "", length := 0 }

/-- Playback fields of the global state dict (src/main.py lines 45-49):
current_index, playing, paused, song_start_time, song_length. -/
structure PlayerState where
  currentIndex : Int
  playing : Bool
  paused : Bool
  songStartTime : ℚ
  songLength : ℚ
  deriving DecidableEq

/-- Initial playback state from the state dict literal (lines 45-49). -/
def initState : PlayerState :=
  { currentIndex := 0, playing := false, paused := false,
    songStartTime := 0, songLength := 0 }

/-- get_playback_position (lines 229-240). posMs is the mixer position
query result (none for the -1 sentinel); now is time.monotonic(). -/
def get_playback_position (posMs : Option ℕ) (now : ℚ) (s : PlayerState) : ℚ :=
  match posMs with
  | none => if s.playing && !s.paused then now - s.songStartTime else 0
  | some ms => max 0 ((ms : ℚ) / 1000)

/-- play_song (lines 188-202). On an empty catalog it returns at once;
otherwise it reduces the index modulo the catalog length, and if the
load/play calls succeed (ok = true) it updates the five playback fields;
if they raise (ok = false) the except branch only prints, leaving the
state unchanged. -/
def play_song (songs : List Song) (ok : Bool) (now : ℚ) (index : Int)
    (s : PlayerState) : PlayerState :=
  if songs.isEmpty then s
  else
    let i : Int := index % (songs.length : Int)
    let song := songs.getD i.toNat defaultSong
    if ok then
      { s with currentIndex := i, playing := true, paused := false,
               songStartTime := now, songLength := song.length }
    else s

/-- toggle_play_pause (lines 204-214). Note the source order on resume:
paused is set to False before get_playback_position is called to
recompute song_start_time. -/
def toggle_play_pause (songs : List Song) (ok : Bool) (posMs : Option ℕ)
    (now : ℚ) (s : PlayerState) : PlayerState :=
  if !s.playing then
    play_song songs ok now s.currentIndex s
  else if s.paused then
    let s1 := { s with paused := false }
    { s1 with songStartTime := now - get_playback_position posMs now s1 }
  else
    { s with paused := true }

/-- stop_playback (lines 216-219). -/
def stop_playback (s : PlayerState) : PlayerState :=
  { s with playing := false, paused := false }

/-- next_song (lines 221-223): (current_index + 1) % max(1, len(songs)),
then play_song. Python % on a positive modulus agrees with Int.emod. -/
def next_song (songs : List Song) (ok : Bool) (now : ℚ)
    (s : PlayerState) : PlayerState :=
  play_song songs ok now ((s.currentIndex + 1) % ((max 1 songs.length : ℕ) : Int)) s

/-- prev_song (lines 225-227): (current_index - 1) % max(1, len(songs)),
then play_song. -/
def prev_song (songs : List Song) (ok : Bool) (now : ℚ)
    (s : PlayerState) : PlayerState :=
  play_song songs ok now ((s.currentIndex - 1) % ((max 1 songs.length : ℕ) : Int)) s

/-- Effective total duration used by the player screen (line 403):
state song_length if truthy, else the current catalog entry length,
else 0.0 (a zero entry length already yields 0). -/
def playerTickTotal (songs : List Song) (s : PlayerState) : ℚ :=
  let cur := songs.getD s.currentIndex.toNat defaultSong
  if s.songLength ≠ 0 then s.songLength else cur.length

/-- Auto-advance part of one screen_player tick (lines 387, 403-410).
When the catalog is empty the cur block is skipped entirely. Otherwise
the code computes total and pos and, when total > 0 and
pos > total + 0.3, calls next_song and resets the displayed position to
0. The result is (new playback state, displayed elapsed seconds, whether
the auto-advance branch fired). -/
def screen_player_tick (songs : List Song) (ok : Bool) (posMs : Option ℕ)
    (now : ℚ) (s : PlayerState) : PlayerState × ℚ × Bool :=
  if songs.isEmpty then (s, 0, false)
  else
    let total := playerTickTotal songs s
    let pos := get_playback_position posMs now s
    if total > 0 ∧ pos > total + 3/10 then
      (next_song songs ok now s, 0, true)
    else (s, pos, false)

/-- Two-song demo catalog (the scenario of spec section 8). -/
def demoSongs : List Song :=
  [{ path := "a.mp3", title := "SongA", artist := "", length := 10 },
   { path := "b.mp3", title := "SongB", artist := "", length := 5 }]

example : (play_song demoSongs true 0 0 initState).currentIndex = 0 := by decide
example : (prev_song demoSongs true 0 initState).currentIndex = 1 := by decide
example : ((-1 : Int) % 3) = 2 := by decide

/-- WiFi channel fields of the global state dict (lines 42, 50, 52):
wifi_list, last_scan_wifi, wifi_error. -/
structure WifiState where
  wifiList : List String
  wifiError : Option String
  lastScanWifi : ℚ
  deriving DecidableEq

/-- Initial WiFi channel state from the state dict literal: empty list,
no error, last_scan_wifi = 0. -/
def wifiInit : WifiState :=
  { wifiList := [], wifiError := none, lastScanWifi := 0 }

/-- Outcome of the external platform scan command inside scan_wifi:
either the SSID list parsed from the tool output, or one of the three
exception classes caught at lines 99-104 (FileNotFoundError,
subprocess.TimeoutExpired, any other Exception). -/
inductive WifiScanResult where
  | ok (ssids : List String)
  | toolNotFound (msg : String)
  | timedOut
  | failed (msg : String)
  deriving DecidableEq

/-- scan_wifi (lines 57-105): returns the SSID list on success; on any
caught exception it sets state wifi_error with the corresponding message
and returns the empty list. It never raises past the caller. The result
is (returned list, state after the side effect on wifi_error). -/
def scan_wifi (r : WifiScanResult) (s : WifiState) : List String × WifiState :=
  match r with
  | .ok ssids => (ssids, s)
  | .toolNotFound msg =>
      ([], { s with wifiError := some ("WiFi tool not found: " ++ msg) })
  | .timedOut =>
      ([], { s with wifiError := some "WiFi scan timed out" })
  | .failed msg =>
      ([], { s with wifiError := some ("WiFi scan failed: " ++ msg) })

/-- Scan branch of one screen_wifi tick (lines 313-323). If wifi_error
is truthy the scan branch is skipped; otherwise, when
now - last_scan_wifi > 6 the code runs scan_wifi, assigns its return
value to wifi_list and then assigns None to wifi_error (line 321),
overwriting whatever scan_wifi stored there. last_scan_wifi is not
assigned anywhere in the source. The Bool records whether the underlying
scan ran on this tick. now is time.time(). -/
def screen_wifi_tick (r : WifiScanResult) (now : ℚ) (s : WifiState) :
    WifiState × Bool :=
  if s.wifiError.isSome then (s, false)
  else if now - s.lastScanWifi > 6 then
    let res := scan_wifi r s
    ({ res.2 with wifiList := res.1, wifiError := none }, true)
  else (s, false)

/-- One discovery channel of the session state: result list plus
nullable error (the Bluetooth channel fields bt_list and bt_error,
lines 43, 53). -/
structure ChannelState where
  list : List String
  error : Option String
  deriving DecidableEq

/-- One atomic store into a channel of the shared state dict. Under the
CPython GIL a single dict-item assignment is atomic; the source contains
no lock, so the unit of atomicity is exactly one assignment statement. -/
inductive ChannelWrite where
  | setList (l : List String)
  | setError (e : Option String)
  deriving DecidableEq

/-- Apply one atomic assignment to the channel. -/
def applyWrite (s : ChannelState) : ChannelWrite → ChannelState
  | .setList l => { s with list := l }
  | .setError e => { s with error := e }

/-- Assignment sequence of the bt_scan_background success path (lines
122-123): first bt_list = devices, then bt_error = None. (The
last_scan_bt assignment that follows touches neither field of the
pair.) -/
def btSuccessWrites (devices : List String) : List ChannelWrite :=
  [ChannelWrite.setList devices, ChannelWrite.setError none]

/-- Assignment sequence of the bt_scan_background failure path (lines
125-126): first bt_error = message, then bt_list = []. -/
def btFailureWrites (msg : String) : List ChannelWrite :=
  [ChannelWrite.setError (some ("Bluetooth scan failed: " ++ msg)),
   ChannelWrite.setList []]

/-- Snapshot a reader takes after the writer has executed the first k
assignments of the sequence: the render thread may be scheduled between
any two of the writer thread's assignments. -/
def observeAfter (s : ChannelState) (ws : List ChannelWrite) (k : ℕ) :
    ChannelState :=
  (ws.take k).foldl applyWrite s

/-- One playback-controller invocation reachable from the UI: play from
the song list, toggle from the player controls, stop, next, previous.
Each carries the environment of that invocation: the monotonic clock
reading, the audio-engine success flag for the play_song try block, and
the native position query result where the source consults it. -/
inductive PlayerOp where
  | play (index : Int) (ok : Bool) (now : ℚ)
  | toggle (ok : Bool) (posMs : Option ℕ) (now : ℚ)
  | stop
  | next (ok : Bool) (now : ℚ)
  | prev (ok : Bool) (now : ℚ)
  deriving DecidableEq

/-- Dispatch one playback operation to the source function it invokes. -/
def runOp (songs : List Song) (s : PlayerState) : PlayerOp → PlayerState
  | .play i ok now => play_song songs ok now i s
  | .toggle ok posMs now => toggle_play_pause songs ok posMs now s
  | .stop => stop_playback s
  | .next ok now => next_song songs ok now s
  | .prev ok now => prev_song songs ok now s

/-- Run a sequence of playback operations left to right. -/
def runOps (songs : List Song) (s : PlayerState) (ops : List PlayerOp) :
    PlayerState :=
  ops.foldl (runOp songs) s

example :
    (runOps demoSongs initState
      [PlayerOp.play 0 true 0, PlayerOp.toggle true none 1]).paused = true := by
  decide

/-- C4: for every catalog, clock reading and index, when loading or
starting the audio fails (ok = false) play_song returns the playback
state unchanged: current index, playing flag, paused flag, start
reference and cached duration all keep their prior values, and the
except branch means no exception escapes. -/
theorem play_song_failure_is_noop (songs : List Song) (now : ℚ) (index : Int)
    (s : PlayerState) : play_song songs false now index s = s := by
  simp [play_song]

/-- C7: on the empty catalog, play_song (for any index), next_song and
prev_song all leave the playback state untouched. -/
theorem empty_catalog_ops_are_noops (ok : Bool) (now : ℚ) (index : Int)
    (s : PlayerState) :
    play_song [] ok now index s = s ∧ next_song [] ok now s = s ∧
    prev_song [] ok now s = s := by
  refine ⟨?_, ?_, ?_⟩ <;> simp [play_song, next_song, prev_song]

/-- C1: the 6-second re-scan gate of screen_wifi is broken because
last_scan_wifi is never assigned anywhere in the source. Two consecutive
WiFi-screen ticks 3 seconds apart (wall-clock times 100 and 103, from
the initial state) both invoke the underlying platform scan, and in
general no screen_wifi tick ever changes last_scan_wifi. -/
theorem wifi_gate_never_blocks :
    (screen_wifi_tick (WifiScanResult.ok ["HomeNet"]) 100 wifiInit).2 = true ∧
    (screen_wifi_tick (WifiScanResult.ok ["HomeNet"]) 103
        (screen_wifi_tick (WifiScanResult.ok ["HomeNet"]) 100 wifiInit).1).2 = true ∧
    (∀ r : WifiScanResult, ∀ now : ℚ, ∀ s : WifiState,
      ((screen_wifi_tick r now s).1).lastScanWifi = s.lastScanWifi) := by
  refine ⟨?_, ?_, ?_⟩
  · norm_num [screen_wifi_tick, scan_wifi, wifiInit]
  · norm_num [screen_wifi_tick, scan_wifi, wifiInit]
  · intro r now s
    cases r <;> simp only [screen_wifi_tick, scan_wifi] <;> split <;> try rfl
    all_goals split <;> rfl

/-- C2: after a failed scan the WiFi error field does not survive the
scan path. With a tool-not-found failure from the initial state, the
tick runs the scan (scan_wifi stores the error message), but line 321
then assigns None to wifi_error, so the path completes with an empty
list and a null error, contradicting the stated failure policy. -/
theorem wifi_error_clobbered :
    (screen_wifi_tick (WifiScanResult.toolNotFound "nmcli") 100 wifiInit).2 = true ∧
    (screen_wifi_tick (WifiScanResult.toolNotFound "nmcli") 100 wifiInit).1.wifiList = [] ∧
    (screen_wifi_tick (WifiScanResult.toolNotFound "nmcli") 100 wifiInit).1.wifiError = none := by
  norm_num [screen_wifi_tick, scan_wifi, wifiInit]

/-- C9 counterexample: the Bluetooth channel update is not atomic. A
reader scheduled between the two assignments of the success path
observes the new device list paired with the stale error: starting from
a channel holding an old error, after the first of the two writes the
snapshot is exactly (new list, old error) - the half-updated pair the
claim says can never be observed. -/
theorem bt_half_update_observable :
    observeAfter { list := [], error := some "Bluetooth scan failed: old" }
        (btSuccessWrites ["Speaker (AA:BB:CC:DD:EE:FF)"]) 1 =
      { list := ["Speaker (AA:BB:CC:DD:EE:FF)"],
        error := some "Bluetooth scan failed: old" } := by
  decide

/-- C9 amended: each channel-pair update is two separate atomic
assignments with no critical section. After both writes the pair is
consistent (success: new list and null error; failure: error message and
empty list), but the snapshot between the two writes pairs the new list
with the prior error on the success path, and the new error with the
prior list on the failure path. -/
theorem bt_channel_update_two_steps (s : ChannelState) (devices : List String)
    (msg : String) :
    observeAfter s (btSuccessWrites devices) 2
        = { list := devices, error := none } ∧
    observeAfter s (btSuccessWrites devices) 1
        = { list := devices, error := s.error } ∧
    observeAfter s (btFailureWrites msg) 2
        = { list := [], error := some ("Bluetooth scan failed: " ++ msg) } ∧
    observeAfter s (btFailureWrites msg) 1
        = { list := s.list, error := some ("Bluetooth scan failed: " ++ msg) } :=
  ⟨rfl, rfl, rfl, rfl⟩

/-- C5: get_playback_position returns the native position in seconds
whenever the query reports a millisecond count; on the unknown sentinel
it returns now minus the start reference when playing and not paused,
and 0 otherwise; and under the monotonic-clock assumption (the recorded
start reference is not in the future) the result is never negative on
any path. -/
theorem get_playback_position_spec (posMs : Option ℕ) (now : ℚ)
    (s : PlayerState) (h : s.songStartTime ≤ now) :
    (∀ ms : ℕ, posMs = some ms →
      get_playback_position posMs now s = (ms : ℚ) / 1000) ∧
    (posMs = none → get_playback_position posMs now s =
      if s.playing = true ∧ s.paused = false then now - s.songStartTime else 0) ∧
    0 ≤ get_playback_position posMs now s := by
  refine ⟨?_, ?_, ?_⟩
  · intro ms hms
    subst hms
    simp only [get_playback_position]
    exact max_eq_right (by positivity)
  · intro hn
    subst hn
    cases hp : s.playing <;> cases hq : s.paused <;>
      simp [get_playback_position, hp, hq]
  · cases posMs with
    | none =>
        simp only [get_playback_position]
        split
        · linarith
        · exact le_refl 0
    | some ms => exact le_max_left 0 _

/-- C5 witness: concrete instances of the specification of
get_playback_position at the initial state. -/
theorem get_playback_position_spec_witness :
    0 ≤ get_playback_position (some 5000) 7 initState ∧
    get_playback_position (some 5000) 7 initState = ((5000 : ℕ) : ℚ) / 1000 :=
  ⟨(get_playback_position_spec (some 5000) 7 initState (by norm_num [initState])).2.2,
   (get_playback_position_spec (some 5000) 7 initState (by norm_num [initState])).1 5000 rfl⟩

/-- Playback state in the Paused configuration (playing and paused both
set, as toggle_play_pause leaves them after pausing), with a 10-second
cached duration. -/
def pausedDemo : PlayerState :=
  { currentIndex := 0, playing := true, paused := true,
    songStartTime := 0, songLength := 10 }

/-- C3 counterexample: the auto-advance branch of screen_player never
consults the playing/paused flags. In the Paused state, with the native
query reporting 20000 ms against a 10-second duration, the tick fires
auto-advance (calls next_song and resets the displayed position),
refuting the claim that it never fires while Paused for any value of the
reported position. -/
theorem auto_advance_fires_while_paused :
    pausedDemo.playing = true ∧ pausedDemo.paused = true ∧
    (screen_player_tick demoSongs true (some 20000) 50 pausedDemo).2.2 = true ∧
    (screen_player_tick demoSongs true (some 20000) 50 pausedDemo).1
      = next_song demoSongs true 50 pausedDemo := by
  refine ⟨rfl, rfl, ?_, ?_⟩ <;>
    norm_num [screen_player_tick, playerTickTotal, get_playback_position,
      pausedDemo, demoSongs]

/-- C3 amended: on a non-empty catalog, the auto-advance branch fires
exactly when the effective total duration (cached song_length, else the
current catalog entry's length) is positive and get_playback_position
exceeds it by more than 0.3 s, independently of the playing and paused
flags; when it fires the tick's state is next_song applied and the
displayed position is reset to 0; and with an unknown native position it
cannot fire while Paused or Stopped, because the fallback position is
then 0. -/
theorem auto_advance_amended (songs : List Song) (ok : Bool)
    (posMs : Option ℕ) (now : ℚ) (s : PlayerState) (h : songs ≠ []) :
    ((screen_player_tick songs ok posMs now s).2.2 = true ↔
      0 < playerTickTotal songs s ∧
      playerTickTotal songs s + 3/10 < get_playback_position posMs now s) ∧
    ((screen_player_tick songs ok posMs now s).2.2 = true →
      screen_player_tick songs ok posMs now s = (next_song songs ok now s, 0, true)) ∧
    (posMs = none → (s.playing = false ∨ s.paused = true) →
      (screen_player_tick songs ok posMs now s).2.2 = false) := by
  have hne : songs.isEmpty = false := by
    simp [List.isEmpty_iff, h]
  refine ⟨?_, ?_, ?_⟩
  · simp only [screen_player_tick, hne, Bool.false_eq_true, if_false]
    split
    · rename_i hc
      simpa using And.intro hc.1 hc.2
    · rename_i hc
      simp only [not_and_or, not_lt] at hc
      constructor
      · intro hfalse
        exact absurd hfalse (by simp)
      · intro hpos
        rcases hc with hc | hc
        · exact absurd hpos.1 (not_lt.mpr hc)
        · exact absurd hpos.2 (not_lt.mpr hc)
  · simp only [screen_player_tick, hne, Bool.false_eq_true, if_false]
    split
    · intro _; rfl
    · intro hfalse
      exact absurd hfalse (by simp)
  · intro hn hflags
    subst hn
    have hpos0 : get_playback_position none now s = 0 := by
      rcases hflags with hf | hf <;> simp [get_playback_position, hf]
    simp only [screen_player_tick, hne, Bool.false_eq_true, if_false, hpos0]
    split
    · rename_i hc
      exact absurd hc.2 (by intro hlt; linarith [hc.1])
    · rfl

/-- C3 amended witness: with an unknown native position in the initial
(Stopped) state the auto-advance branch does not fire. -/
theorem auto_advance_amended_witness :
    (screen_player_tick demoSongs true none 50 initState).2.2 = false :=
  (auto_advance_amended demoSongs true none 50 initState
      (by simp [demoSongs])).2.2 rfl (Or.inl rfl)

lemma isEmpty_false_of_ne_nil {songs : List Song} (h : songs ≠ []) :
    songs.isEmpty = false := by
  simp [List.isEmpty_iff, h]

lemma max_one_length_of_ne_nil {songs : List Song} (h : songs ≠ []) :
    ((max 1 songs.length : ℕ) : Int) = (songs.length : Int) := by
  have h1 : 1 ≤ songs.length := List.length_pos.mpr h
  simp [Nat.max_eq_right h1]

lemma length_cast_pos_of_ne_nil {songs : List Song} (h : songs ≠ []) :
    (0 : Int) < (songs.length : Int) := by
  exact_mod_cast List.length_pos.mpr h

lemma play_song_true_currentIndex (songs : List Song) (now : ℚ) (i : Int)
    (s : PlayerState) (h : songs ≠ []) :
    (play_song songs true now i s).currentIndex = i % (songs.length : Int) := by
  simp [play_song, isEmpty_false_of_ne_nil h]

lemma next_song_true_currentIndex (songs : List Song) (now : ℚ)
    (s : PlayerState) (h : songs ≠ []) :
    (next_song songs true now s).currentIndex
      = (s.currentIndex + 1) % (songs.length : Int) := by
  rw [next_song, play_song_true_currentIndex songs now _ s h,
    max_one_length_of_ne_nil h, Int.emod_emod_of_dvd _ dvd_rfl]

lemma prev_song_true_currentIndex (songs : List Song) (now : ℚ)
    (s : PlayerState) (h : songs ≠ []) :
    (prev_song songs true now s).currentIndex
      = (s.currentIndex - 1) % (songs.length : Int) := by
  rw [prev_song, play_song_true_currentIndex songs now _ s h,
    max_one_length_of_ne_nil h, Int.emod_emod_of_dvd _ dvd_rfl]

lemma next_song_iterate_currentIndex (songs : List Song) (now : ℚ)
    (h : songs ≠ []) (s : PlayerState) (n : ℕ) :
    ((next_song songs true now)^[n + 1] s).currentIndex
      = (s.currentIndex + (n : Int) + 1) % (songs.length : Int) := by
  induction n generalizing s with
  | zero =>
      simpa using next_song_true_currentIndex songs now s h
  | succ k ih =>
      rw [Function.iterate_succ_apply',
        next_song_true_currentIndex songs now _ h, ih s, Int.emod_add_emod]
      congr 1
      push_cast
      ring

/-- C6: on a non-empty catalog with a valid starting index, applying
next_song (with successful audio calls) once per catalog entry returns
the current index to the starting index; prev_song wraps downward modulo
the catalog length; and in particular prev_song from index 0 on any
3-entry catalog yields index 2. -/
theorem next_cycles_catalog (songs : List Song) (now : ℚ) (s : PlayerState)
    (h1 : songs ≠ []) (h2 : 0 ≤ s.currentIndex)
    (h3 : s.currentIndex < (songs.length : Int)) :
    ((next_song songs true now)^[songs.length] s).currentIndex = s.currentIndex ∧
    (prev_song songs true now s).currentIndex
      = (s.currentIndex - 1) % (songs.length : Int) ∧
    (∀ songs3 : List Song, songs3.length = 3 → ∀ t : PlayerState,
      t.currentIndex = 0 →
      (prev_song songs3 true now t).currentIndex = 2) := by
  refine ⟨?_, prev_song_true_currentIndex songs now s h1, ?_⟩
  · obtain ⟨m, hm⟩ : ∃ m, songs.length = m + 1 :=
      ⟨songs.length - 1, by
        have := List.length_pos.mpr h1
        omega⟩
    rw [hm, next_song_iterate_currentIndex songs now h1 s m]
    rw [hm] at h3 ⊢
    have hcast : s.currentIndex + (m : Int) + 1
        = s.currentIndex + ((m + 1 : ℕ) : Int) := by
      push_cast
      ring
    rw [hcast, Int.add_emod_self, Int.emod_eq_of_lt h2 h3]
  · intro songs3 h3len t ht
    have hne3 : songs3 ≠ [] := by
      intro hnil
      rw [hnil] at h3len
      simp at h3len
    rw [prev_song_true_currentIndex songs3 now t hne3, ht, h3len]
    decide

/-- Three-song demo catalog for the wrap-around scenario. -/
def demoThree : List Song :=
  [{ path := "x.mp3", title := "X", artist := "", length := 3 },
   { path := "y.mp3", title := "Y", artist := "", length := 4 },
   { path := "z.mp3", title := "Z", artist := "", length := 5 }]

/-- C6 witness: on the two-song demo catalog, two next_song steps return
the index to 0, and prev_song from index 0 on a 3-entry catalog yields
index 2. -/
theorem next_cycles_catalog_witness :
    ((next_song demoSongs true 0)^[2] initState).currentIndex = 0 ∧
    (prev_song demoThree true 0 initState).currentIndex = 2 :=
  ⟨(next_cycles_catalog demoSongs 0 initState (by decide) (by decide)
      (by decide)).1,
   (next_cycles_catalog demoSongs 0 initState (by decide) (by decide)
      (by decide)).2.2 demoThree rfl initState rfl⟩

/-- Valid-index invariant: the current index is a legal index into the
catalog. -/
def idxInRange (songs : List Song) (s : PlayerState) : Prop :=
  0 ≤ s.currentIndex ∧ s.currentIndex < (songs.length : Int)

lemma play_song_idxInRange (songs : List Song) (ok : Bool) (now : ℚ)
    (i : Int) (s : PlayerState) (h : songs ≠ []) (hs : idxInRange songs s) :
    idxInRange songs (play_song songs ok now i s) := by
  have hpos := length_cast_pos_of_ne_nil h
  cases ok with
  | false =>
      simp only [play_song, isEmpty_false_of_ne_nil h, Bool.false_eq_true,
        if_false]
      exact hs
  | true =>
      simp only [play_song, isEmpty_false_of_ne_nil h, Bool.false_eq_true,
        if_false, if_true]
      exact ⟨Int.emod_nonneg _ (by omega), Int.emod_lt_of_pos _ hpos⟩

lemma toggle_idxInRange (songs : List Song) (ok : Bool) (posMs : Option ℕ)
    (now : ℚ) (s : PlayerState) (h : songs ≠ []) (hs : idxInRange songs s) :
    idxInRange songs (toggle_play_pause songs ok posMs now s) := by
  unfold toggle_play_pause
  split
  · exact play_song_idxInRange songs ok now s.currentIndex s h hs
  · split
    · exact hs
    · exact hs

lemma runOp_idxInRange (songs : List Song) (h : songs ≠ []) (s : PlayerState)
    (op : PlayerOp) (hs : idxInRange songs s) :
    idxInRange songs (runOp songs s op) := by
  cases op with
  | play i ok now => exact play_song_idxInRange songs ok now i s h hs
  | toggle ok posMs now => exact toggle_idxInRange songs ok posMs now s h hs
  | stop => exact hs
  | next ok now => exact play_song_idxInRange songs ok now _ s h hs
  | prev ok now => exact play_song_idxInRange songs ok now _ s h hs

lemma runOps_idxInRange (songs : List Song) (h : songs ≠ []) (s : PlayerState)
    (hs : idxInRange songs s) (ops : List PlayerOp) :
    idxInRange songs (runOps songs s ops) := by
  induction ops generalizing s with
  | nil => exact hs
  | cons op rest ih => exact ih _ (runOp_idxInRange songs h s op hs)

/-- C8: from the initial state, after any sequence of play, toggle,
stop, next and previous invocations (with arbitrary per-call clocks,
audio outcomes and native position results), the current song index is a
valid index into any fixed non-empty catalog. -/
theorem current_index_always_valid (songs : List Song) (ops : List PlayerOp)
    (h : songs ≠ []) :
    0 ≤ (runOps songs initState ops).currentIndex ∧
    (runOps songs initState ops).currentIndex < (songs.length : Int) :=
  runOps_idxInRange songs h initState
    ⟨le_refl 0, length_cast_pos_of_ne_nil h⟩ ops

/-- C8 witness: the invariant instantiated on the demo catalog after a
next, a failed play, and a previous. -/
theorem current_index_always_valid_witness :
    0 ≤ (runOps demoSongs initState
        [PlayerOp.next true 0, PlayerOp.play 5 false 1, PlayerOp.prev true 2]).currentIndex ∧
    (runOps demoSongs initState
        [PlayerOp.next true 0, PlayerOp.play 5 false 1, PlayerOp.prev true 2]).currentIndex
      < (demoSongs.length : Int) :=
  current_index_always_valid demoSongs
    [PlayerOp.next true 0, PlayerOp.play 5 false 1, PlayerOp.prev true 2]
    (by decide)

/-- Flags invariant: the paused flag is only ever set while the playing
flag is set. -/
def pausedImpliesPlaying (s : PlayerState) : Prop :=
  s.paused = true → s.playing = true

lemma play_song_pausedImpliesPlaying (songs : List Song) (ok : Bool)
    (now : ℚ) (i : Int) (s : PlayerState) (hs : pausedImpliesPlaying s) :
    pausedImpliesPlaying (play_song songs ok now i s) := by
  unfold play_song
  split
  · exact hs
  · split
    · intro _
      rfl
    · exact hs

lemma toggle_pausedImpliesPlaying (songs : List Song) (ok : Bool)
    (posMs : Option ℕ) (now : ℚ) (s : PlayerState)
    (hs : pausedImpliesPlaying s) :
    pausedImpliesPlaying (toggle_play_pause songs ok posMs now s) := by
  unfold toggle_play_pause
  split
  · exact play_song_pausedImpliesPlaying songs ok now s.currentIndex s hs
  · rename_i hpl
    split
    · intro habs
      exact absurd habs Bool.false_ne_true
    · intro _
      cases hp : s.playing with
      | true => rfl
      | false => exact absurd (by simp [hp]) hpl

lemma runOp_pausedImpliesPlaying (songs : List Song) (s : PlayerState)
    (op : PlayerOp) (hs : pausedImpliesPlaying s) :
    pausedImpliesPlaying (runOp songs s op) := by
  cases op with
  | play i ok now => exact play_song_pausedImpliesPlaying songs ok now i s hs
  | toggle ok posMs now =>
      exact toggle_pausedImpliesPlaying songs ok posMs now s hs
  | stop =>
      intro habs
      exact absurd habs Bool.false_ne_true
  | next ok now => exact play_song_pausedImpliesPlaying songs ok now _ s hs
  | prev ok now => exact play_song_pausedImpliesPlaying songs ok now _ s hs

lemma runOps_pausedImpliesPlaying (songs : List Song) (s : PlayerState)
    (hs : pausedImpliesPlaying s) (ops : List PlayerOp) :
    pausedImpliesPlaying (runOps songs s ops) := by
  induction ops generalizing s with
  | nil => exact hs
  | cons op rest ih => exact ih _ (runOp_pausedImpliesPlaying songs s op hs)

/-- C10: from the initial state, after any sequence of playback
operations against any catalog, the paused flag implies the playing
flag: no reachable playback state has paused set while playing is
clear. -/
theorem paused_implies_playing (songs : List Song) (ops : List PlayerOp)
    (h : (runOps songs initState ops).paused = true) :
    (runOps songs initState ops).playing = true :=
  runOps_pausedImpliesPlaying songs initState
    (fun habs => absurd habs Bool.false_ne_true) ops h

/-- C10 witness: after playing and then pausing on the demo catalog the
state is paused, and the theorem yields that it is also playing. -/
theorem paused_implies_playing_witness :
    (runOps demoSongs initState
      [PlayerOp.play 0 true 0, PlayerOp.toggle true none 1]).playing = true :=
  paused_implies_playing demoSongs
    [PlayerOp.play 0 true 0, PlayerOp.toggle true none 1] (by decide)
